import Mathlib

/-!
Verification of the texas-court-scraper pipeline.

Shallow embedding of the repository's three Python sources:
  - `court_scraper.py` (class `CourtPDFScraper`: link discovery, download,
    PDF-to-text conversion, merged/separate output assembly, orchestration),
  - `api/scrape.py` (Vercel serverless `handler`),
  - `app.py` (Flask `/scrape` route and `WebScrapingJob.run`).

External collaborators (the HTTP transport, BeautifulSoup tree navigation,
PyPDF2 page extraction, the filesystem) are modelled as explicit oracle
inputs; the repository's own logic (guards, regex scans, URL resolution,
dedup checks, accumulation, response shaping) is translated faithfully.
All definitions are executable and structurally recursive so that concrete
runs evaluate by `decide`.
-/

/-! ## Character and string primitives

Python string operations used by the sources, re-implemented structurally
over `List Char` (ASCII fragment, which covers every string the code
manipulates). -/

/-- Python whitespace characters, as used by `str.strip()` and the regex
class `\s` (ASCII fragment). -/
def isWsChar (c : Char) : Bool :=
  c == ' ' || c == '\t' || c == '\n' || c == '\r' || c == '\x0b' || c == '\x0c'

/-- ASCII decimal digit, as matched by the regex class `\d`. -/
def isDigitChar (c : Char) : Bool :=
  decide ('0' ≤ c) && decide (c ≤ '9')

/-- ASCII lower-casing of one character, modelling Python `str.lower()`. -/
def lowerAscii (c : Char) : Char :=
  if decide ('A' ≤ c) && decide (c ≤ 'Z') then Char.ofNat (c.toNat + 32) else c

/-- ASCII lower-casing of a character list. -/
def toLowerL (l : List Char) : List Char := l.map lowerAscii

/-- ASCII lower-casing of a string, modelling Python `str.lower()`. -/
def pyLower (s : String) : String := ⟨toLowerL s.data⟩

/-- Python `str.strip()` on a character list: drop trailing then leading
whitespace. -/
def pyStripList (l : List Char) : List Char :=
  ((l.reverse.dropWhile isWsChar).reverse).dropWhile isWsChar

/-- Python `str.strip()` (ASCII whitespace fragment). -/
def pyStrip (s : String) : String := ⟨pyStripList s.data⟩

/-- Decides whether `pat` is a prefix of `l`. -/
def isPrefixL : List Char → List Char → Bool
  | [], _ => true
  | _ :: _, [] => false
  | a :: as, b :: bs => a == b && isPrefixL as bs

/-- Decides whether `pat` occurs as a contiguous sublist of `hay`,
modelling the Python `in` operator on strings. -/
def containsL (pat : List Char) : List Char → Bool
  | [] => isPrefixL pat []
  | hay@(_ :: t) => isPrefixL pat hay || containsL pat t

/-- Python `pat in s` for strings. -/
def containsSub (s pat : String) : Bool := containsL pat.data s.data

/-- Splits a character list at the first occurrence of `c`; `none` when `c`
is absent. -/
def splitFirst (c : Char) : List Char → Option (List Char × List Char)
  | [] => none
  | a :: as =>
    if a == c then some ([], as)
    else (splitFirst c as).map (fun p => (a :: p.1, p.2))

/-- Python `sep.join(parts)` on character lists. -/
def interList (sep : List Char) : List (List Char) → List Char
  | [] => []
  | [x] => x
  | x :: y :: xs => x ++ sep ++ interList sep (y :: xs)

/-- Python `sep.join(parts)` for strings. -/
def joinStrs (sep : String) (parts : List String) : String :=
  ⟨interList sep.data (parts.map (fun s => s.data))⟩

/-! ## URL library models

`urllib.parse.urljoin` and `urllib.parse.urlparse` are standard-library
collaborators of the sources. They are modelled here for the fragment the
code exercises: `http(s)` base URLs, and targets that are absolute
`http(s)` URLs, absolute paths, or relative paths (no `..` segments). -/

/-- True when the character list starts with an absolute `http(s)` URL
scheme. -/
def isHttpAbs (l : List Char) : Bool :=
  isPrefixL "http://".data l || isPrefixL "https://".data l

/-- Splits an `http(s)` URL into scheme part (including `://`), network
location, and the remaining path-query-fragment. -/
def splitSchemeHost (l : List Char) : Option (List Char × List Char × List Char) :=
  if isPrefixL "https://".data l then
    let rest := l.drop 8
    some ("https://".data, rest.takeWhile (fun c => !(c == '/') && !(c == '?') && !(c == '#')),
          rest.dropWhile (fun c => !(c == '/') && !(c == '?') && !(c == '#')))
  else if isPrefixL "http://".data l then
    let rest := l.drop 7
    some ("http://".data, rest.takeWhile (fun c => !(c == '/') && !(c == '?') && !(c == '#')),
          rest.dropWhile (fun c => !(c == '/') && !(c == '?') && !(c == '#')))
  else none

/-- Directory part of a URL path: everything up to and including the last
slash, or `/` when the path has no slash (an authority with an empty path
resolves relative references against `/`). -/
def dirOf (path : List Char) : List Char :=
  let kept := (path.reverse.dropWhile (fun c => !(c == '/'))).reverse
  if kept = [] then ['/'] else kept

/-- Urljoin model: `urllib.parse.urljoin(base, url)` for `http(s)` bases.
An absolute `http(s)` target is returned unchanged; an absolute path is
attached to the base's authority; a relative path replaces the base's last
path segment (the base's query is dropped first, per RFC 3986 merge). A
base without an `http(s)` scheme returns the target unchanged (the code
only ever joins against validated court-site URLs). -/
def urljoinModel (base url : String) : String :=
  let u := url.data
  if u = [] then base
  else if isHttpAbs u then url
  else
    match splitSchemeHost base.data with
    | some (root, host, path) =>
      if isPrefixL ['/'] u then ⟨root ++ host ++ u⟩
      else
        let cleanPath := path.takeWhile (fun c => !(c == '?') && !(c == '#'))
        ⟨root ++ host ++ dirOf cleanPath ++ u⟩
    | none => url

/-- Result of `urllib.parse.urlparse` restricted to the two fields the
handler reads. `hostname` is `""` when Python would give `None`. -/
structure ParsedUrl where
  scheme : String
  hostname : String
deriving DecidableEq

/-- First character allowed in a URL scheme. -/
def isSchemeStart (c : Char) : Bool :=
  (decide ('a' ≤ c) && decide (c ≤ 'z')) || (decide ('A' ≤ c) && decide (c ≤ 'Z'))

/-- Subsequent characters allowed in a URL scheme. -/
def isSchemeChar (c : Char) : Bool :=
  isSchemeStart c || isDigitChar c || c == '+' || c == '-' || c == '.'

/-- Whether a candidate scheme (the part before the first `:`) is a valid
scheme per `urllib.parse`. -/
def schemeValid : List Char → Bool
  | [] => false
  | c :: cs => isSchemeStart c && cs.all isSchemeChar

/-- Hostname extraction from the part of the URL after the scheme: the
network location is present only after `//`, is delimited by `/?#`, loses
any userinfo (up to the last `@`) and any `:port`, and is lower-cased. -/
def hostFromRest (rest : List Char) : List Char :=
  if isPrefixL ['/', '/'] rest then
    let netloc := (rest.drop 2).takeWhile (fun c => !(c == '/') && !(c == '?') && !(c == '#'))
    let afterAt := (netloc.reverse.takeWhile (fun c => !(c == '@'))).reverse
    toLowerL (afterAt.takeWhile (fun c => !(c == ':')))
  else []

/-- Urlparse model: scheme and hostname of a URL string, as read by the
serverless handler's validation code. -/
def urlparseModel (s : String) : ParsedUrl :=
  let l := s.data
  match splitFirst ':' l with
  | some (sch, rest) =>
    if schemeValid sch then ⟨⟨toLowerL sch⟩, ⟨hostFromRest rest⟩⟩
    else ⟨"", ⟨hostFromRest l⟩⟩
  | none => ⟨"", ⟨hostFromRest l⟩⟩

/-! ## Link Extractor (`CourtPDFScraper.find_pdf_links`)

BeautifulSoup tree navigation is an external collaborator; a page is
modelled by the two query results the code requests from it:
`soup.find_all('a', href=True)` in document order, and
`soup.find_all(['td','div'], string=re.compile('PDF', re.I))` together
with, for each such element, the href of `parent.find('a', href=True)`
(flattened to `none` when the parent or its anchor is absent). -/

/-- One anchor from `soup.find_all('a', href=True)`: its `href` attribute
and its `get_text(strip=True)`. -/
structure PrimaryAnchor where
  href : String
  text : String
deriving DecidableEq

/-- One element from the secondary `find_all` (a `td`/`div` whose string
matches `/PDF/i`): its stripped text and the href of the first anchor under
its parent, when both exist. -/
structure SecondaryElem where
  text : String
  parentAnchorHref : Option String
deriving DecidableEq

/-- The markup query results `find_pdf_links` consumes. -/
structure PageModel where
  anchors : List PrimaryAnchor
  pdfElems : List SecondaryElem
deriving DecidableEq

/-- One discovered PDF reference, mirroring the `pdf_info` dict. -/
structure PdfInfo where
  url : String
  text : String
  size_kb : String
  filename : String
deriving DecidableEq

/-- Attempts the regex `PDF/(\d+)\s*KB` at the head of `l`, returning the
captured digit group. -/
def matchSizeAt (l : List Char) : Option (List Char) :=
  if isPrefixL "PDF/".data l then
    let rest := l.drop 4
    let ds := rest.takeWhile isDigitChar
    if ds = [] then none
    else
      let rest2 := (rest.dropWhile isDigitChar).dropWhile isWsChar
      if isPrefixL "KB".data rest2 then some ds else none
  else none

/-- Model of `re.search(r'PDF/(\d+)\s*KB', text)`: leftmost match of the
pattern, returning capture group 1. -/
def searchSize : List Char → Option (List Char)
  | [] => none
  | l@(_ :: t) =>
    match matchSizeAt l with
    | some ds => some ds
    | none => searchSize t

/-- Primary pass of `find_pdf_links` (pattern 1): every anchor whose href
contains both `SearchMedia.aspx` and `MediaVersionID` is appended, with the
size scanned from the anchor text and a synthesized filename numbered by
the current length of the accumulated list. -/
def primaryPass (base : String) : List PrimaryAnchor → List PdfInfo → List PdfInfo
  | [], acc => acc
  | a :: rest, acc =>
    if containsSub a.href "SearchMedia.aspx" && containsSub a.href "MediaVersionID" then
      let size : String := match searchSize a.text.data with
        | some ds => ⟨ds⟩
        | none => "unknown"
      let info : PdfInfo :=
        { url := urljoinModel base a.href
          text := a.text
          size_kb := size
          filename := "document_" ++ toString (acc.length + 1) ++ "_" ++ size ++ "KB.pdf" }
      primaryPass base rest (acc ++ [info])
    else primaryPass base rest acc

/-- Secondary pass of `find_pdf_links` (pattern 2): a `td`/`div` whose
parent holds an anchor with `SearchMedia.aspx` in its href is appended —
unless the raw href string already occurs among the accumulated entries'
(resolved) `url` fields, which is the code's duplicate check. -/
def secondaryPass (base : String) : List SecondaryElem → List PdfInfo → List PdfInfo
  | [], acc => acc
  | e :: rest, acc =>
    match e.parentAnchorHref with
    | none => secondaryPass base rest acc
    | some href =>
      if containsSub href "SearchMedia.aspx" then
        if href ∈ acc.map (fun p => p.url) then
          secondaryPass base rest acc
        else
          let info : PdfInfo :=
            { url := urljoinModel base href
              text := e.text
              size_kb := "unknown"
              filename := "document_" ++ toString (acc.length + 1) ++ ".pdf" }
          secondaryPass base rest (acc ++ [info])
      else secondaryPass base rest acc

/-- Model of `CourtPDFScraper.find_pdf_links(soup, base_url)`. -/
def find_pdf_links (page : PageModel) (base_url : String) : List PdfInfo :=
  secondaryPass base_url page.pdfElems (primaryPass base_url page.anchors [])

/-! ## Retriever (`CourtPDFScraper.download_pdf`)

The HTTP transport is the external capability `fetch(url) -> response |
error`; one document fetch outcome is an `Option HttpResp`. Payload bytes
are natural numbers; `chunks` models `response.iter_content(chunk_size=8192)`. -/

/-- A successful HTTP document response: declared content type header and
the streamed payload chunks. -/
structure HttpResp where
  content_type : String
  chunks : List (List Nat)
deriving DecidableEq

/-- Bytes written by the download loop: every truthy (non-empty) chunk is
appended to the file. -/
def savedBytes (chunks : List (List Nat)) : List Nat :=
  (chunks.filter (fun c => !(c = []))).flatten

/-- Path under which a downloaded PDF is saved:
`self.pdf_dir / pdf_info['filename']` with `pdf_dir = output_dir/"pdfs"`. -/
def pdfSavePath (outDir : String) (info : PdfInfo) : String :=
  outDir ++ "/pdfs/" ++ info.filename

/-- Model of `CourtPDFScraper.download_pdf(pdf_info)`. A transport failure
(timeout, non-2xx, connection error: `resp = none`) is caught and yields
`none`. Otherwise the declared content type is lower-cased and checked for
`'pdf'`; a mismatch only emits a warning line. The payload is then written
to the pdf directory and the path returned. Returns (download result with
saved bytes, warning lines printed). -/
def download_pdf (outDir : String) (info : PdfInfo) (resp : Option HttpResp) :
    Option (String × List Nat) × List String :=
  match resp with
  | none => (none, [])
  | some r =>
    let content_type := pyLower r.content_type
    let warnings :=
      if containsSub content_type "pdf" then []
      else ["Warning: Content type is " ++ content_type ++ ", not PDF"]
    (some (pdfSavePath outDir info, savedBytes r.chunks), warnings)

/-! ## Text Extractor (`CourtPDFScraper.pdf_to_text`)

PyPDF2 is the external collaborator: a parse attempt on the saved payload
yields either the list of per-page texts (`page.extract_text()` for each
page) or a failure (`none`), which the code catches per document. -/

/-- The `full_text` computed by `pdf_to_text`: each page's text followed by
a `"\n"` entry, joined and stripped. -/
def fullTextOfPages (pages : List String) : String :=
  pyStrip ⟨(pages.map (fun p => p.data ++ ['\n'])).flatten⟩

/-- Document wrapper used in merge mode:
`f"<document id={doc_id}>\n{full_text}\n</document>"`. -/
def wrapDoc (doc_id : Nat) (full_text : String) : String :=
  "<document id=" ++ toString doc_id ++ ">\n" ++ full_text ++ "\n</document>"

/-- Path of the separate-mode text artifact: `self.txt_dir / (stem + '.txt')`
with `txt_dir = output_dir/"txt_files"`; the stem is the PDF filename
without its final extension. -/
def txtSavePath (outDir : String) (pdf_path : String) : String :=
  let base := (pdf_path.data.reverse.takeWhile (fun c => !(c == '/'))).reverse
  let stem := if containsL ['.'] base
    then (((base.reverse).dropWhile (fun c => !(c == '.'))).drop 1).reverse
    else base
  outDir ++ "/txt_files/" ++ ⟨stem⟩ ++ ".txt"

/-- Model of `CourtPDFScraper.pdf_to_text(pdf_path, doc_id)`. `pages` is
the PyPDF2 outcome for the bytes at `pdf_path` (`none`: the exception path,
which leaves `merged_content` untouched and returns `None`). In merge mode
the wrapped text is appended to `merged_content` and `None` is returned;
otherwise the text artifact (path, written content) is returned. Result is
(new `merged_content`, optional text artifact). -/
def pdf_to_text (outDir : String) (merge : Bool) (mc : List String)
    (pdf_path : String) (doc_id : Nat) (pages : Option (List String)) :
    List String × Option (String × String) :=
  match pages with
  | none => (mc, none)
  | some ps =>
    let full_text := fullTextOfPages ps
    if merge then (mc ++ [wrapDoc doc_id full_text], none)
    else (mc, some (txtSavePath outDir pdf_path, full_text))

/-! ## Output Assembler (`CourtPDFScraper.save_merged_file`) -/

/-- Model of `CourtPDFScraper.save_merged_file()`: nothing is written when
`merged_content` is empty; otherwise the entries are joined with a blank
line and written to `merged_documents.txt` at the run root. Returns the
artifact (path, content). The file-write exception path is not modelled
(the filesystem collaborator is assumed to accept the write). -/
def save_merged_file (outDir : String) (mc : List String) : Option (String × String) :=
  if mc = [] then none
  else some (outDir ++ "/merged_documents.txt", joinStrs "\n\n" mc)

/-! ## Pipeline Orchestrator (`CourtPDFScraper.scrape_case_page`) -/

/-- External world of one run: the page fetch outcome and, for the `k`-th
discovered reference (0-based), the document fetch outcome and the PyPDF2
parse outcome of the saved payload. -/
structure ScrapeEnv where
  page : Option PageModel
  resp : Nat → Option HttpResp
  pages : Nat → Option (List String)

/-- The per-reference loop of `scrape_case_page`
(`for i, pdf_info in enumerate(pdf_links, 1): ...`), threading the three
mutable sequences: `results['pdfs']`, `results['txt_files']` (with written
contents) and `self.merged_content`. `k` is the 0-based position, so the
ordinal `i` passed to `pdf_to_text` is `k + 1`. -/
def processRefs (env : ScrapeEnv) (outDir : String) (merge : Bool) :
    Nat → List PdfInfo → List String → List (String × String) → List String →
    List String × List (String × String) × List String
  | _, [], pdfs, txts, mc => (pdfs, txts, mc)
  | k, info :: rest, pdfs, txts, mc =>
    match (download_pdf outDir info (env.resp k)).fst with
    | none => processRefs env outDir merge (k + 1) rest pdfs txts mc
    | some pd =>
      let r := pdf_to_text outDir merge mc pd.fst (k + 1) (env.pages k)
      match r.snd with
      | none => processRefs env outDir merge (k + 1) rest (pdfs ++ [pd.fst]) txts r.fst
      | some t => processRefs env outDir merge (k + 1) rest (pdfs ++ [pd.fst]) (txts ++ [t]) r.fst

/-- The body of `scrape_case_page` up to (but not including) the final
merged-file save: page fetch, link discovery, the early returns for a
failed page fetch and for an empty link list, then the reference loop.
Returns (`results['pdfs']`, `results['txt_files']`, `self.merged_content`). -/
def scrapeRun (env : ScrapeEnv) (outDir : String) (merge : Bool) (url : String) :
    List String × List (String × String) × List String :=
  match env.page with
  | none => ([], [], [])
  | some pg =>
    let links := find_pdf_links pg url
    if links = [] then ([], [], [])
    else processRefs env outDir merge 0 links [] [] []

/-- The terminal value of one run, mirroring the `results` dict. Text and
merged artifacts carry (path, written content); the optional `merged_file`
models the key that is set only when a merged artifact was produced. -/
structure ScrapeResults where
  pdfs : List String
  txt_files : List (String × String)
  merged_file : Option (String × String)
deriving DecidableEq

/-- Model of `CourtPDFScraper.scrape_case_page(url)`: the run body followed
by the merge-mode save of `merged_content`. -/
def scrape_case_page (env : ScrapeEnv) (outDir : String) (merge : Bool) (url : String) :
    ScrapeResults :=
  let r := scrapeRun env outDir merge url
  { pdfs := r.1
    txt_files := r.2.1
    merged_file := if merge then save_merged_file outDir r.2.2 else none }

/-! ## Serverless invocation surface (`api/scrape.py handler`) -/

/-- The JSON body of each `handler` return site. `invalidUrlFormat` is the
`except` branch around `urlparse` (unreachable in this model, where the
urlparse model is total) and `serverError` the outer `except` branch
(nothing in the modelled flow raises). -/
inductive ApiBody where
  | corsOk
  | methodNotAllowed
  | urlRequired
  | invalidScheme
  | hostNotAllowed
  | invalidUrlFormat
  | noPdfs
  | merged (pdf_count processed_count : Nat) (merged_content filename : String)
  | separate (pdf_count processed_count : Nat) (documents : List (Nat × String × String))
  | serverError
deriving DecidableEq

/-- The `success` JSON field of a handler body, when present. -/
def ApiBody.successField : ApiBody → Option Bool
  | .noPdfs => some false
  | .merged _ _ _ _ => some true
  | .separate _ _ _ => some true
  | .serverError => some false
  | _ => none

/-- The `pdf_count` JSON field of a handler body, when present. -/
def ApiBody.pdfCountField : ApiBody → Option Nat
  | .noPdfs => some 0
  | .merged n _ _ _ => some n
  | .separate n _ _ => some n
  | _ => none

/-- Whether a handler body is one of the pre-pipeline validation
rejections (missing URL, bad scheme, disallowed host, unparseable URL). -/
def isValidationError : ApiBody → Bool
  | .urlRequired => true
  | .invalidScheme => true
  | .hostNotAllowed => true
  | .invalidUrlFormat => true
  | _ => false

/-- A handler return value: HTTP status code and JSON body (the fixed CORS
headers are constants and are not modelled). -/
structure ApiResponse where
  statusCode : Nat
  body : ApiBody
deriving DecidableEq

/-- Output directory of one serverless invocation:
`os.path.join(tempfile.mkdtemp(), "court_case")` with the temporary
directory modelled as a fixed root. -/
def apiOutputDir : String := "/tmp/court_case"

/-- Path component after the last slash, modelling `os.path.basename`. -/
def basenameStr (p : String) : String :=
  ⟨(p.data.reverse.takeWhile (fun c => !(c == '/'))).reverse⟩

/-- Model of `api/scrape.py handler(request)`. `reqBody` is the parsed JSON
request body restricted to the two fields read (`url`, `merge_texts`);
`none` models an empty body. The flow: CORS preflight, method check, URL
presence check, SSRF validation (scheme must be http/https, hostname must
be the single allow-listed court host), then the pipeline and response
shaping: zero downloaded PDFs reports success `False`; merge mode with a
merged artifact returns its content; otherwise the separate documents are
read back and enumerated from 1. -/
def handler (method : String) (reqBody : Option (String × Bool)) (env : ScrapeEnv) :
    ApiResponse :=
  if method = "OPTIONS" then ⟨200, .corsOk⟩
  else if method ≠ "POST" then ⟨405, .methodNotAllowed⟩
  else
    let url := pyStrip ((reqBody.map Prod.fst).getD "")
    let merge := (reqBody.map Prod.snd).getD false
    if url = "" then ⟨400, .urlRequired⟩
    else
      let parsed := urlparseModel url
      if ¬(parsed.scheme = "http" ∨ parsed.scheme = "https") then ⟨400, .invalidScheme⟩
      else if parsed.hostname ≠ "search.txcourts.gov" then ⟨400, .hostNotAllowed⟩
      else
        let results := scrape_case_page env apiOutputDir merge url
        let total := results.pdfs.length
        if total = 0 then ⟨200, .noPdfs⟩
        else
          match merge, results.merged_file with
          | true, some mf =>
            ⟨200, .merged total results.txt_files.length mf.2 "merged_court_documents.txt"⟩
          | _, _ =>
            let documents := results.txt_files.enum.map
              (fun p => (p.1 + 1, basenameStr p.2.1, p.2.2))
            ⟨200, .separate total documents.length documents⟩

/-! ## Flask invocation surface (`app.py`) -/

/-- The JSON body of each `/scrape` route return site. -/
inductive AppScrapeBody where
  | urlRequired
  | started
deriving DecidableEq

/-- Model of the Flask `/scrape` route: the only check before the job is
created and its thread started is that the stripped URL is non-empty. No
scheme or host validation is performed on this surface. Returns (HTTP
status, body). -/
def appScrape (reqBody : Option (String × Bool)) : Nat × AppScrapeBody :=
  let url := pyStrip ((reqBody.map Prod.fst).getD "")
  if url = "" then (400, .urlRequired)
  else (200, .started)

/-- Model of `WebScrapingJob.run`: the background thread hands the job's
URL straight to `scrape_case_page` (the progress wrapper around
`download_pdf` delegates and leaves outcomes unchanged). -/
def webJobRun (env : ScrapeEnv) (outDir : String) (url : String) (merge : Bool) :
    ScrapeResults :=
  scrape_case_page env outDir merge url

/-! ## Refinement view: per-reference contributions

Modelled from the spec: §3 ("`document_ordinal` values are a contiguous
1..N sequence matching the order references were discovered ... ordinal is
assigned before download") and §7 ("per-item errors are swallowed at the
item boundary and do not abort the run"). Each discovered reference's
contribution to the run result is a function of that reference's own
position and its own fetch/extraction outcomes alone; the run result is
the in-order concatenation of these contributions. The orchestrator is
proved equal to this view. -/

/-- Contribution of the reference at 0-based position `j` to
`results['pdfs']`: its saved path when its document fetch succeeded,
nothing otherwise. -/
def specRefDownload (r : Option HttpResp) (outDir : String) (info : PdfInfo) : List String :=
  match r with
  | none => []
  | some _ => [pdfSavePath outDir info]

/-- Contribution of one reference to `results['txt_files']`: in separate
mode, its text artifact when both its fetch and its extraction succeeded;
nothing otherwise, and always nothing in merge mode. -/
def specRefTxt (outDir : String) (merge : Bool) (r : Option HttpResp)
    (pgs : Option (List String)) (info : PdfInfo) : List (String × String) :=
  if merge then []
  else
    match r, pgs with
    | some _, some ps =>
      [(txtSavePath outDir (pdfSavePath outDir info), fullTextOfPages ps)]
    | _, _ => []

/-- Contribution of the reference at 0-based position `j` to
`merged_content`: in merge mode, its text wrapped with the pre-assigned
ordinal `j + 1` when fetch and extraction succeeded; nothing otherwise. -/
def specRefMerged (merge : Bool) (r : Option HttpResp) (pgs : Option (List String))
    (j : Nat) : List String :=
  if merge then
    match r, pgs with
    | some _, some ps => [wrapDoc (j + 1) (fullTextOfPages ps)]
    | _, _ => []
  else []

/-- In-order concatenation of per-reference contributions, positions
counted from `k`. -/
def specContribs (f : Nat → PdfInfo → List α) : Nat → List PdfInfo → List α
  | _, [] => []
  | k, info :: rest => f k info ++ specContribs f (k + 1) rest

/-! ## Concrete fixtures for witnesses and counterexamples -/

/-- A valid court case URL (the spec's pass example). -/
def goodUrl : String := "https://search.txcourts.gov/x?cn=1"

/-- The spec's rejected example URL: allowed scheme, disallowed host. -/
def evilUrl : String := "https://evil.example.com/x"

/-- A case page holding two well-formed document anchors. -/
def pageAlphaBeta : PageModel :=
  { anchors := [⟨"SearchMedia.aspx?MediaVersionID=1", "Petition PDF/12 KB"⟩,
                ⟨"SearchMedia.aspx?MediaVersionID=2", "Brief PDF/34 KB"⟩],
    pdfElems := [] }

/-- A run in which both documents fetch and extract, yielding the page
texts `Alpha` and `Beta`. -/
def envAlphaBeta : ScrapeEnv :=
  { page := some pageAlphaBeta,
    resp := fun _ => some ⟨"application/pdf", [[1, 2]]⟩,
    pages := fun k => if k = 0 then some ["Alpha"] else some ["Beta"] }

/-- A case page on which the primary pass finds one anchor with a relative
href and the secondary pass finds the same relative href under a
PDF-labelled table cell. -/
def pageDupRelative : PageModel :=
  { anchors := [⟨"SearchMedia.aspx?MediaVersionID=1", "Petition PDF/12 KB"⟩],
    pdfElems := [⟨"PDF", some "SearchMedia.aspx?MediaVersionID=1"⟩] }

/-- Base URL for the duplicate-suppression scenarios. -/
def dupBase : String := "https://search.txcourts.gov/Case.aspx?cn=22-0001"

/-- The resolved URL both passes produce on `pageDupRelative`. -/
def dupResolved : String := "https://search.txcourts.gov/SearchMedia.aspx?MediaVersionID=1"

/-- A case page with two distinct primary anchors and one secondary
candidate whose href is already absolute and duplicates the first
anchor's resolved URL. -/
def pageDupAbsolute : PageModel :=
  { anchors := [⟨"SearchMedia.aspx?MediaVersionID=1", "Petition PDF/12 KB"⟩,
                ⟨"SearchMedia.aspx?MediaVersionID=2", "Brief PDF/34 KB"⟩],
    pdfElems := [⟨"PDF", some "https://search.txcourts.gov/SearchMedia.aspx?MediaVersionID=1"⟩] }

/-- A run whose page fetch fails (transport error on the case page). -/
def envPageFail : ScrapeEnv :=
  { page := none, resp := fun _ => none, pages := fun _ => none }

/-- A run whose page fetch succeeds but on which no document link is
discovered. -/
def envZeroLinks : ScrapeEnv :=
  { page := some ⟨[], []⟩, resp := fun _ => none, pages := fun _ => none }

/-- A case page holding a single well-formed document anchor. -/
def pageOne : PageModel :=
  { anchors := [⟨"SearchMedia.aspx?MediaVersionID=1", "Order PDF/9 KB"⟩],
    pdfElems := [] }

/-- A run in which the single document downloads (with a non-PDF declared
content type) but its payload cannot be parsed, so extraction fails. -/
def envNoExtract : ScrapeEnv :=
  { page := some pageOne,
    resp := fun _ => some ⟨"text/html", [[5]]⟩,
    pages := fun _ => none }

/-- A run against a non-court host that nevertheless serves a matching
page and document: what the Flask surface would execute for a disallowed
URL. -/
def envEvilServes : ScrapeEnv :=
  { page := some pageOne,
    resp := fun _ => some ⟨"application/pdf", [[7]]⟩,
    pages := fun _ => some ["leaked"] }

/-- A case page holding three well-formed document anchors. -/
def pageThree : PageModel :=
  { anchors := [⟨"SearchMedia.aspx?MediaVersionID=1", "A PDF/1 KB"⟩,
                ⟨"SearchMedia.aspx?MediaVersionID=2", "B PDF/2 KB"⟩,
                ⟨"SearchMedia.aspx?MediaVersionID=3", "C PDF/3 KB"⟩],
    pdfElems := [] }

/-- A three-document run in which every fetch and extraction succeeds. -/
def envThreeOk : ScrapeEnv :=
  { page := some pageThree,
    resp := fun _ => some ⟨"application/pdf", [[7]]⟩,
    pages := fun k => some ["page " ++ toString (k + 1)] }

/-- The same run as `envThreeOk` except that the second document's fetch
fails. -/
def envThreeMidFail : ScrapeEnv :=
  { page := some pageThree,
    resp := fun k => if k = 1 then none else some ⟨"application/pdf", [[7]]⟩,
    pages := fun k => some ["page " ++ toString (k + 1)] }

/-- A single-document run whose response declares `text/html`. -/
def envCtHtml : ScrapeEnv :=
  { page := some pageOne,
    resp := fun _ => some ⟨"text/html", [[5], [6]]⟩,
    pages := fun _ => some ["body"] }

/-- The same run as `envCtHtml` but with the declared type
`application/pdf`. -/
def envCtPdf : ScrapeEnv :=
  { page := some pageOne,
    resp := fun _ => some ⟨"application/pdf", [[5], [6]]⟩,
    pages := fun _ => some ["body"] }

/-- An arbitrary concrete reference, used to instantiate per-reference
facts. -/
def infoW : PdfInfo :=
  { url := "https://search.txcourts.gov/SearchMedia.aspx?MediaVersionID=1",
    text := "Order PDF/9 KB", size_kb := "9", filename := "document_1_9KB.pdf" }

/-- Modelled from the spec: §4.3 — "each page's text is extracted and
pages are concatenated with a single newline separator between pages, then
the whole result is stripped of leading/trailing whitespace". Refinement
target for the code's `full_text` computation. -/
def specExtractedText (pages : List String) : String :=
  pyStrip (joinStrs "\n" pages)

/-! # Theorems -/

/-! ## String lemmas -/

theorem pyStripList_append_ws (l : List Char) (c : Char) (hc : isWsChar c = true) :
    pyStripList (l ++ [c]) = pyStripList l := by
  simp [pyStripList, List.reverse_append, List.dropWhile_cons, hc]

theorem flatten_pages_eq_inter (p : String) (ps : List String) :
    ((p :: ps).map (fun s => s.data ++ ['\n'])).flatten
      = interList ['\n'] ((p :: ps).map (fun s => s.data)) ++ ['\n'] := by
  induction ps generalizing p with
  | nil => simp [interList]
  | cons q qs ih =>
    calc ((p :: q :: qs).map (fun s => s.data ++ ['\n'])).flatten
        = (p.data ++ ['\n']) ++ ((q :: qs).map (fun s => s.data ++ ['\n'])).flatten := by simp
      _ = (p.data ++ ['\n']) ++ (interList ['\n'] ((q :: qs).map (fun s => s.data)) ++ ['\n']) := by
          rw [ih q]
      _ = interList ['\n'] ((p :: q :: qs).map (fun s => s.data)) ++ ['\n'] := by
          simp [interList, List.append_assoc]

/-! ## Per-reference characterization of the orchestrator loop -/

theorem processRefs_eq (env : ScrapeEnv) (outDir : String) (merge : Bool)
    (refs : List PdfInfo) :
    ∀ (k : Nat) (pdfs : List String) (txts : List (String × String)) (mc : List String),
    processRefs env outDir merge k refs pdfs txts mc =
      (pdfs ++ specContribs (fun j i => specRefDownload (env.resp j) outDir i) k refs,
       txts ++ specContribs (fun j i => specRefTxt outDir merge (env.resp j) (env.pages j) i) k refs,
       mc ++ specContribs (fun j i => specRefMerged merge (env.resp j) (env.pages j) j) k refs) := by
  induction refs with
  | nil => intro k pdfs txts mc; simp [processRefs, specContribs]
  | cons info rest ih =>
    intro k pdfs txts mc
    cases hr : env.resp k with
    | none =>
      simp [processRefs, download_pdf, hr, ih, specContribs,
        specRefDownload, specRefTxt, specRefMerged]
    | some r =>
      cases hp : env.pages k with
      | none =>
        simp [processRefs, download_pdf, pdf_to_text, hr, hp, ih, specContribs,
          specRefDownload, specRefTxt, specRefMerged]
      | some ps =>
        cases merge <;>
          simp [processRefs, download_pdf, pdf_to_text, hr, hp, ih, specContribs,
            specRefDownload, specRefTxt, specRefMerged]

theorem scrapeRun_eq (env : ScrapeEnv) (outDir : String) (merge : Bool) (url : String)
    (pg : PageModel) (h : env.page = some pg) :
    scrapeRun env outDir merge url =
      (specContribs (fun j i => specRefDownload (env.resp j) outDir i) 0 (find_pdf_links pg url),
       specContribs (fun j i => specRefTxt outDir merge (env.resp j) (env.pages j) i) 0 (find_pdf_links pg url),
       specContribs (fun j i => specRefMerged merge (env.resp j) (env.pages j) j) 0 (find_pdf_links pg url)) := by
  unfold scrapeRun
  rw [h]
  by_cases hl : find_pdf_links pg url = []
  · simp [hl, specContribs]
  · simp [hl, processRefs_eq]

theorem specContribs_congr (f g : Nat → PdfInfo → List α) (refs : List PdfInfo)
    (h : ∀ j i, f j i = g j i) :
    ∀ k, specContribs f k refs = specContribs g k refs := by
  induction refs with
  | nil => intro k; simp [specContribs]
  | cons info rest ih => intro k; simp [specContribs, h, ih]

theorem specContribs_nil (refs : List PdfInfo) :
    ∀ k, specContribs (fun (_ : Nat) (_ : PdfInfo) => ([] : List α)) k refs = [] := by
  induction refs with
  | nil => intro k; simp [specContribs]
  | cons info rest ih => intro k; simp [specContribs, ih]

theorem txt_files_empty_of_merge (env : ScrapeEnv) (outDir url : String) :
    (scrape_case_page env outDir true url).txt_files = [] := by
  cases hpg : env.page with
  | none => simp [scrape_case_page, scrapeRun, hpg]
  | some pg =>
    have h := scrapeRun_eq env outDir true url pg hpg
    have h2 : specContribs
        (fun j i => specRefTxt outDir true (env.resp j) (env.pages j) i) 0 (find_pdf_links pg url)
        = specContribs (fun (_ : Nat) (_ : PdfInfo) => ([] : List (String × String))) 0 (find_pdf_links pg url) :=
      specContribs_congr _ _ _ (fun j i => by simp [specRefTxt]) 0
    simp [scrape_case_page, h, h2, specContribs_nil]

/-! ## Link extractor lemmas -/

theorem primaryPass_urls (base : String) (as : List PrimaryAnchor) :
    ∀ acc : List PdfInfo,
    (primaryPass base as acc).map (fun p => p.url) =
      acc.map (fun p => p.url) ++
        (as.filter (fun a => containsSub a.href "SearchMedia.aspx"
            && containsSub a.href "MediaVersionID")).map
          (fun a => urljoinModel base a.href) := by
  induction as with
  | nil => intro acc; simp [primaryPass]
  | cons a rest ih =>
    intro acc
    by_cases hg : (containsSub a.href "SearchMedia.aspx"
        && containsSub a.href "MediaVersionID") = true
    · simp [primaryPass, hg, ih, List.filter_cons, List.append_assoc]
    · simp [primaryPass, hg, ih, List.filter_cons]

theorem nodup_url_append (acc : List PdfInfo) (info : PdfInfo)
    (h1 : (acc.map (fun p => p.url)).Nodup) (h2 : info.url ∉ acc.map (fun p => p.url)) :
    ((acc ++ [info]).map (fun p => p.url)).Nodup := by
  simp [List.nodup_append, h1, h2]

theorem secondaryPass_nodup (base : String) (es : List SecondaryElem) :
    ∀ acc : List PdfInfo,
    (acc.map (fun p => p.url)).Nodup →
    (∀ e ∈ es, ∀ h, e.parentAnchorHref = some h → urljoinModel base h = h) →
    ((secondaryPass base es acc).map (fun p => p.url)).Nodup := by
  induction es with
  | nil => intro acc hacc _; simpa [secondaryPass] using hacc
  | cons e rest ih =>
    intro acc hacc habs
    have habs_rest : ∀ e' ∈ rest, ∀ h, e'.parentAnchorHref = some h → urljoinModel base h = h :=
      fun e' he' h hh => habs e' (List.mem_cons_of_mem _ he') h hh
    cases hp : e.parentAnchorHref with
    | none => simpa [secondaryPass, hp] using ih acc hacc habs_rest
    | some href =>
      by_cases hs : containsSub href "SearchMedia.aspx" = true
      · by_cases hdup : href ∈ acc.map (fun p => p.url)
        · simpa [secondaryPass, hp, hs, hdup] using ih acc hacc habs_rest
        · have habs_e : urljoinModel base href = href :=
            habs e (List.mem_cons_self _ _) href hp
          have hnew := nodup_url_append acc
            { url := urljoinModel base href, text := e.text, size_kb := "unknown",
              filename := "document_" ++ toString (acc.length + 1) ++ ".pdf" }
            hacc (by simpa [habs_e] using hdup)
          simpa [secondaryPass, hp, hs, hdup] using ih _ hnew habs_rest
      · simpa [secondaryPass, hp, hs] using ih acc hacc habs_rest

/-! ## Claim theorems -/

/-- C8: for every parseable paginated payload, the extracted text equals
the concatenation of the per-page texts with a single newline separator
between consecutive pages, with leading and trailing whitespace stripped
from the whole result. -/
theorem extracted_text_newline_joined_stripped (pages : List String) :
    fullTextOfPages pages = specExtractedText pages := by
  cases pages with
  | nil => rfl
  | cons p ps =>
    unfold fullTextOfPages specExtractedText joinStrs pyStrip
    rw [flatten_pages_eq_inter p ps]
    exact congrArg String.mk (pyStripList_append_ws _ '\n' (by decide))

/-- C2 counterexample: on a page where the primary pass collects a
reference via a relative href and the secondary pass meets the same
relative href, the secondary candidate is not suppressed (the code
compares the raw href against resolved URLs), so the same resolved
absolute URL appears twice in the output sequence. -/
theorem duplicate_resolved_url_not_suppressed :
    (find_pdf_links pageDupRelative dupBase).map (fun p => p.url)
      = [dupResolved, dupResolved] ∧
    ¬ ((find_pdf_links pageDupRelative dupBase).map (fun p => p.url)).Nodup := by
  decide

/-- C2 (amended): the secondary pass suppresses a candidate whose raw href
string already appears among the previously collected references' resolved
URLs; hence, when the primary anchors' resolved URLs are pairwise distinct
and every secondary candidate href is absolute (left unchanged by
resolution), the output sequence contains no two references with the same
resolved URL. -/
theorem secondary_pass_dedup_amended (page : PageModel) (base : String)
    (h1 : ((page.anchors.filter (fun a => containsSub a.href "SearchMedia.aspx"
        && containsSub a.href "MediaVersionID")).map
          (fun a => urljoinModel base a.href)).Nodup)
    (h2 : ∀ e ∈ page.pdfElems, ∀ h, e.parentAnchorHref = some h → urljoinModel base h = h) :
    ((find_pdf_links page base).map (fun p => p.url)).Nodup := by
  unfold find_pdf_links
  apply secondaryPass_nodup base page.pdfElems (primaryPass base page.anchors []) _ h2
  rw [primaryPass_urls]
  simpa using h1

/-- C2 witness: a concrete page (two distinct primary anchors, one
absolute-href secondary duplicate) on which the amended uniqueness holds. -/
theorem secondary_pass_dedup_amended_witness :
    ((find_pdf_links pageDupAbsolute dupBase).map (fun p => p.url)).Nodup :=
  secondary_pass_dedup_amended pageDupAbsolute dupBase (by decide)
    (by
      intro e he h hh
      have hex : e = ⟨"PDF", some dupResolved⟩ := by
        simpa [pageDupAbsolute, dupResolved] using he
      subst hex
      have hsome : some dupResolved = some h := hh
      injection hsome with h2
      subst h2
      decide)

/-- C3: the run result is the in-order concatenation of per-reference
contributions in which the reference at 0-based discovery position `j`
carries the pre-assigned ordinal `j + 1` (so ordinals are the contiguous
1..N discovery positions, fixed before any download), and a reference
whose fetch or extraction fails contributes nothing to the downloaded or
artifact sequences while leaving every other position's contribution
unchanged. -/
theorem ordinals_preassigned_contiguous (env : ScrapeEnv) (outDir url : String)
    (merge : Bool) (pg : PageModel) (h : env.page = some pg) :
    scrapeRun env outDir merge url =
      (specContribs (fun j i => specRefDownload (env.resp j) outDir i) 0 (find_pdf_links pg url),
       specContribs (fun j i => specRefTxt outDir merge (env.resp j) (env.pages j) i) 0 (find_pdf_links pg url),
       specContribs (fun j _i => specRefMerged merge (env.resp j) (env.pages j) j) 0 (find_pdf_links pg url)) :=
  scrapeRun_eq env outDir merge url pg h

/-- C3 witness: a three-document run whose middle download fails; the
characterization applies with the page fetched. -/
theorem ordinals_preassigned_contiguous_witness :
    scrapeRun envThreeMidFail "o" true goodUrl =
      (specContribs (fun j i => specRefDownload (envThreeMidFail.resp j) "o" i) 0 (find_pdf_links pageThree goodUrl),
       specContribs (fun j i => specRefTxt "o" true (envThreeMidFail.resp j) (envThreeMidFail.pages j) i) 0 (find_pdf_links pageThree goodUrl),
       specContribs (fun j _i => specRefMerged true (envThreeMidFail.resp j) (envThreeMidFail.pages j) j) 0 (find_pdf_links pageThree goodUrl)) :=
  ordinals_preassigned_contiguous envThreeMidFail "o" goodUrl true pageThree rfl

/-- C5: a merged-mode run over two documents whose extracted texts are
`Alpha` and `Beta` produces, after all references are processed, exactly
one merged artifact whose content is the two wrapped documents joined by a
blank line; and the assembler joins wrapped entries with `\n\n` in order. -/
theorem merged_artifact_exact_format :
    (scrape_case_page envAlphaBeta "out" true dupBase).merged_file
      = some ("out/merged_documents.txt",
          "<document id=1>\nAlpha\n</document>\n\n<document id=2>\nBeta\n</document>") ∧
    save_merged_file "out" ["<document id=1>\nAlpha\n</document>",
        "<document id=2>\nBeta\n</document>"]
      = some ("out/merged_documents.txt",
          "<document id=1>\nAlpha\n</document>\n\n<document id=2>\nBeta\n</document>") := by
  decide

theorem scrape_empty_of_no_refs (env : ScrapeEnv) (outDir : String) (merge : Bool)
    (url : String)
    (hz : env.page = none ∨ ∃ pg, env.page = some pg ∧ find_pdf_links pg url = []) :
    scrape_case_page env outDir merge url = ⟨[], [], none⟩ := by
  rcases hz with h | ⟨pg, hpg, hlinks⟩
  · cases merge <;> simp [scrape_case_page, scrapeRun, h, save_merged_file]
  · cases merge <;> simp [scrape_case_page, scrapeRun, hpg, hlinks, save_merged_file]

/-- C4 counterexample: a transport failure of the page fetch produces the
very same handler response as a successful fetch that discovers zero
documents, so the zero-documents outcome is not distinct from a
transport or parse failure. -/
theorem zero_docs_vs_page_failure_same_response :
    handler "POST" (some (goodUrl, false)) envPageFail
      = handler "POST" (some (goodUrl, false)) envZeroLinks ∧
    handler "POST" (some (goodUrl, false)) envPageFail = ⟨200, ApiBody.noPdfs⟩ := by
  decide

/-- C4 (amended): every invocation that discovers zero documents — and
equally every invocation whose page fetch or parse fails, which the
pipeline swallows into the same empty result — is reported as the
status-200 body with `success: false` and `pdf_count: 0`. -/
theorem zero_docs_reported_success_false (env : ScrapeEnv) (url : String) (merge : Bool)
    (hs : (urlparseModel (pyStrip url)).scheme = "http"
        ∨ (urlparseModel (pyStrip url)).scheme = "https")
    (hh : (urlparseModel (pyStrip url)).hostname = "search.txcourts.gov")
    (hz : env.page = none
        ∨ ∃ pg, env.page = some pg ∧ find_pdf_links pg (pyStrip url) = []) :
    handler "POST" (some (url, merge)) env = ⟨200, ApiBody.noPdfs⟩ ∧
    ApiBody.noPdfs.successField = some false ∧
    ApiBody.noPdfs.pdfCountField = some 0 := by
  refine ⟨?_, rfl, rfl⟩
  have hne : ¬ (pyStrip url = "") := by
    intro h0
    rw [h0] at hs
    simp [urlparseModel, splitFirst] at hs
  have hscrape := scrape_empty_of_no_refs env apiOutputDir merge (pyStrip url) hz
  simp only [handler, Option.map, Option.getD]
  rw [if_neg (by decide), if_neg (by decide), if_neg hne,
    if_neg (not_not_intro hs), if_neg (not_not_intro hh), hscrape]
  simp

/-- C4 witness: the amended statement applied to a run that fetches the
page and discovers nothing. -/
theorem zero_docs_reported_success_false_witness :
    handler "POST" (some (goodUrl, true)) envZeroLinks = ⟨200, ApiBody.noPdfs⟩ ∧
    ApiBody.noPdfs.successField = some false ∧
    ApiBody.noPdfs.pdfCountField = some 0 :=
  zero_docs_reported_success_false envZeroLinks goodUrl true (by decide) (by decide)
    (Or.inr ⟨⟨[], []⟩, rfl, by decide⟩)

/-- C6: per-item failures are isolated. A missing page (page-fetch
failure) ends the run with an empty result; a reference whose download or
extraction fails contributes nothing to the downloaded, text-artifact or
merged sequences; the run equals the in-order concatenation of
per-reference contributions, each a function of that reference's own
oracle outcomes only; and two worlds that agree everywhere except at
position `k` produce identical contributions at every other position. -/
theorem per_item_failure_isolated (e1 e2 : ScrapeEnv) (outDir url : String) (merge : Bool)
    (pg : PageModel) (k : Nat)
    (h1 : e1.page = some pg)
    (hagree : ∀ j, j ≠ k → e1.resp j = e2.resp j ∧ e1.pages j = e2.pages j) :
    (∀ e : ScrapeEnv, e.page = none →
        scrape_case_page e outDir merge url = ⟨[], [], none⟩) ∧
    (∀ i, specRefDownload none outDir i = []) ∧
    (∀ pgs i, specRefTxt outDir merge none pgs i = []) ∧
    (∀ r i, specRefTxt outDir merge (some r) none i = []) ∧
    (∀ pgs j, specRefMerged merge none pgs j = []) ∧
    (∀ r j, specRefMerged merge (some r) none j = []) ∧
    scrapeRun e1 outDir merge url =
      (specContribs (fun j i => specRefDownload (e1.resp j) outDir i) 0 (find_pdf_links pg url),
       specContribs (fun j i => specRefTxt outDir merge (e1.resp j) (e1.pages j) i) 0 (find_pdf_links pg url),
       specContribs (fun j _i => specRefMerged merge (e1.resp j) (e1.pages j) j) 0 (find_pdf_links pg url)) ∧
    specContribs (fun j i => if j = k then [] else specRefDownload (e2.resp j) outDir i) 0
        (find_pdf_links pg url)
      = specContribs (fun j i => if j = k then [] else specRefDownload (e1.resp j) outDir i) 0
        (find_pdf_links pg url) ∧
    specContribs (fun j i => if j = k then [] else specRefTxt outDir merge (e2.resp j) (e2.pages j) i) 0
        (find_pdf_links pg url)
      = specContribs (fun j i => if j = k then [] else specRefTxt outDir merge (e1.resp j) (e1.pages j) i) 0
        (find_pdf_links pg url) ∧
    specContribs (fun j _i => if j = k then [] else specRefMerged merge (e2.resp j) (e2.pages j) j) 0
        (find_pdf_links pg url)
      = specContribs (fun j _i => if j = k then [] else specRefMerged merge (e1.resp j) (e1.pages j) j) 0
        (find_pdf_links pg url) := by
  refine ⟨?_, ?_, ?_, ?_, ?_, ?_, scrapeRun_eq e1 outDir merge url pg h1, ?_, ?_, ?_⟩
  · intro e he
    exact scrape_empty_of_no_refs e outDir merge url (Or.inl he)
  · intro i; simp [specRefDownload]
  · intro pgs i; cases merge <;> simp [specRefTxt]
  · intro r i; cases merge <;> simp [specRefTxt]
  · intro pgs j; cases merge <;> simp [specRefMerged]
  · intro r j; cases merge <;> simp [specRefMerged]
  · refine specContribs_congr _ _ _ (fun j i => ?_) 0
    by_cases hj : j = k
    · simp [hj]
    · simp [hj, (hagree j hj).1]
  · refine specContribs_congr _ _ _ (fun j i => ?_) 0
    by_cases hj : j = k
    · simp [hj]
    · simp [hj, (hagree j hj).1, (hagree j hj).2]
  · refine specContribs_congr _ _ _ (fun j i => ?_) 0
    by_cases hj : j = k
    · simp [hj]
    · simp [hj, (hagree j hj).1, (hagree j hj).2]

/-- C6 witness: a failed download contributes nothing, and masking out the
failing position of a three-document run leaves contributions identical to
the fully successful world. -/
theorem per_item_failure_isolated_witness :
    specRefDownload none "o" infoW = [] ∧
    specContribs (fun j i => if j = 1 then [] else specRefDownload (envThreeMidFail.resp j) "o" i) 0
        (find_pdf_links pageThree goodUrl)
      = specContribs (fun j i => if j = 1 then [] else specRefDownload (envThreeOk.resp j) "o" i) 0
        (find_pdf_links pageThree goodUrl) := by
  have h := per_item_failure_isolated envThreeOk envThreeMidFail "o" goodUrl true pageThree 1
    rfl (fun j hj => ⟨by simp [envThreeOk, envThreeMidFail, hj], rfl⟩)
  exact ⟨h.2.1 infoW, h.2.2.2.2.2.2.2.1⟩

/-- C7: a declared content type without a PDF indicator changes nothing
but the warning: the download result (saved path and payload bytes) is
identical under any declared type and is never `none`, the warning is
emitted exactly when the lower-cased type lacks `pdf`, and two runs whose
responses differ only in declared content types produce identical scrape
results. -/
theorem content_type_mismatch_only_warns (outDir : String) (info : PdfInfo)
    (ct1 ct2 : String) (chunks : List (List Nat)) :
    (download_pdf outDir info (some ⟨ct1, chunks⟩)).fst
      = (download_pdf outDir info (some ⟨ct2, chunks⟩)).fst ∧
    (download_pdf outDir info (some ⟨ct1, chunks⟩)).fst
      = some (pdfSavePath outDir info, savedBytes chunks) ∧
    ((download_pdf outDir info (some ⟨ct1, chunks⟩)).snd ≠ []
      ↔ containsSub (pyLower ct1) "pdf" = false) ∧
    (∀ f1 f2 : ScrapeEnv, f1.page = f2.page →
      (∀ j, f1.pages j = f2.pages j) →
      (∀ j, (f1.resp j).isSome = (f2.resp j).isSome) →
      ∀ d m u, scrape_case_page f1 d m u = scrape_case_page f2 d m u) := by
  refine ⟨by simp [download_pdf], by simp [download_pdf], ?_, ?_⟩
  · by_cases hct : containsSub (pyLower ct1) "pdf" = true
    · simp [download_pdf, hct]
    · simp [download_pdf, hct]
  · intro f1 f2 hpg hpages hresp d m u
    have hdl : ∀ j i, specRefDownload (f1.resp j) d i = specRefDownload (f2.resp j) d i := by
      intro j i
      have hj := hresp j
      cases hr1 : f1.resp j <;> cases hr2 : f2.resp j <;>
        simp_all [specRefDownload]
    have htx : ∀ j i, specRefTxt d m (f1.resp j) (f1.pages j) i
        = specRefTxt d m (f2.resp j) (f2.pages j) i := by
      intro j i
      have hj := hresp j
      rw [← hpages j]
      cases hr1 : f1.resp j <;> cases hr2 : f2.resp j <;>
        cases hp : f1.pages j <;> cases m <;> simp_all [specRefTxt]
    have hmg : ∀ (j : Nat) (i : PdfInfo), specRefMerged m (f1.resp j) (f1.pages j) j
        = specRefMerged m (f2.resp j) (f2.pages j) j := by
      intro j i
      have hj := hresp j
      rw [← hpages j]
      cases hr1 : f1.resp j <;> cases hr2 : f2.resp j <;>
        cases hp : f1.pages j <;> cases m <;> simp_all [specRefMerged]
    cases hp1 : f1.page with
    | none =>
      have hp2 : f2.page = none := by rw [← hpg, hp1]
      simp [scrape_case_page, scrapeRun, hp1, hp2]
    | some pg =>
      have hp2 : f2.page = some pg := by rw [← hpg, hp1]
      have e1 := scrapeRun_eq f1 d m u pg hp1
      have e2 := scrapeRun_eq f2 d m u pg hp2
      simp only [scrape_case_page, e1, e2]
      rw [specContribs_congr _ _ (find_pdf_links pg u) hdl 0,
        specContribs_congr _ _ (find_pdf_links pg u) htx 0,
        specContribs_congr _ _ (find_pdf_links pg u) (fun j i => hmg j i) 0]

/-- C7 witness: the content-type policy applied to a concrete download and
to two concrete runs differing only in the declared content type. -/
theorem content_type_mismatch_only_warns_witness :
    (download_pdf "o" infoW (some ⟨"text/html", [[5], [6]]⟩)).fst
      = (download_pdf "o" infoW (some ⟨"application/pdf", [[5], [6]]⟩)).fst ∧
    scrape_case_page envCtHtml "o" true goodUrl
      = scrape_case_page envCtPdf "o" true goodUrl := by
  have h := content_type_mismatch_only_warns "o" infoW "text/html" "application/pdf" [[5], [6]]
  exact ⟨h.1, h.2.2.2 envCtHtml envCtPdf rfl (fun _ => rfl) (fun _ => rfl) "o" true goodUrl⟩

/-- C9: in merge mode `pdf_to_text` never returns a text artifact, so a
merged-mode run's `txt_files` sequence is always empty, and every
merged-format handler response carries `processed_count = 0` however many
documents were successfully extracted. -/
theorem merged_mode_processed_count_zero (env : ScrapeEnv) (outDir url method : String)
    (reqBody : Option (String × Bool)) (pc proc : Nat) (mcs fn : String)
    (hm : (handler method reqBody env).body = ApiBody.merged pc proc mcs fn) :
    (scrape_case_page env outDir true url).txt_files = [] ∧ proc = 0 := by
  refine ⟨txt_files_empty_of_merge env outDir url, ?_⟩
  simp only [handler] at hm
  split at hm
  · simp at hm
  · split at hm
    · simp at hm
    · split at hm
      · simp at hm
      · split at hm
        · simp at hm
        · split at hm
          · simp at hm
          · split at hm
            · simp at hm
            · split at hm
              · rename_i hmerge _
                simp only [ApiBody.merged.injEq] at hm
                rw [← hm.2.1, hmerge, txt_files_empty_of_merge]
                rfl
              · simp at hm

/-- C9 witness: a merged run that extracts both documents still reports an
empty `txt_files` sequence and `processed_count = 0`. -/
theorem merged_mode_processed_count_zero_witness :
    (scrape_case_page envAlphaBeta "out" true dupBase).txt_files = [] ∧ (0 : Nat) = 0 :=
  merged_mode_processed_count_zero envAlphaBeta "out" dupBase "POST"
    (some (goodUrl, true)) 2 0
    "<document id=1>\nAlpha\n</document>\n\n<document id=2>\nBeta\n</document>"
    "merged_court_documents.txt" (by decide)

/-- C10: a merged-mode invocation that downloads at least one document but
extracts none produces no merged artifact, so the handler falls through to
the separate-format branch and returns success with an empty document list
and `processed_count = 0`. -/
theorem merged_no_extraction_separate_response (env : ScrapeEnv) (url : String)
    (hs : (urlparseModel (pyStrip url)).scheme = "http"
        ∨ (urlparseModel (pyStrip url)).scheme = "https")
    (hh : (urlparseModel (pyStrip url)).hostname = "search.txcourts.gov")
    (hpd : (scrape_case_page env apiOutputDir true (pyStrip url)).pdfs ≠ [])
    (hmc : (scrapeRun env apiOutputDir true (pyStrip url)).2.2 = []) :
    handler "POST" (some (url, true)) env =
      ⟨200, ApiBody.separate
        (scrape_case_page env apiOutputDir true (pyStrip url)).pdfs.length 0 []⟩ := by
  have hne : ¬ (pyStrip url = "") := by
    intro h0
    rw [h0] at hs
    simp [urlparseModel, splitFirst] at hs
  have hlen : ¬ ((scrape_case_page env apiOutputDir true (pyStrip url)).pdfs.length = 0) := by
    simpa [List.length_eq_zero] using hpd
  have hmf : (scrape_case_page env apiOutputDir true (pyStrip url)).merged_file = none := by
    simp [scrape_case_page, hmc, save_merged_file]
  have htxt := txt_files_empty_of_merge env apiOutputDir (pyStrip url)
  simp only [handler, Option.map, Option.getD]
  rw [if_neg (by decide), if_neg (by decide), if_neg hne, if_neg (not_not_intro hs),
    if_neg (not_not_intro hh), if_neg hlen, hmf, htxt]
  rfl

/-- C10 witness: one document downloads but its payload cannot be parsed;
the merged-mode handler answers with the separate format, an empty
document list and `processed_count = 0`. -/
theorem merged_no_extraction_separate_response_witness :
    handler "POST" (some (goodUrl, true)) envNoExtract
      = ⟨200, ApiBody.separate 1 0 []⟩ := by
  have h := merged_no_extraction_separate_response envNoExtract goodUrl
    (by decide) (by decide) (by decide) (by decide)
  exact h.trans (by decide)

/-- C1 (amended): the serverless API handler rejects, independently of any
network activity and with a 400 validation error, every request whose URL
has a scheme other than http/https or a host other than the allow-listed
court host, and lets `https://search.txcourts.gov/x?cn=1` pass validation;
the Flask web surface performs no such check (see the counterexample). -/
theorem api_validation_guard (url : String) (merge : Bool) (e1 e2 : ScrapeEnv)
    (h : ¬((urlparseModel (pyStrip url)).scheme = "http"
            ∨ (urlparseModel (pyStrip url)).scheme = "https")
       ∨ (urlparseModel (pyStrip url)).hostname ≠ "search.txcourts.gov") :
    handler "POST" (some (url, merge)) e1 = handler "POST" (some (url, merge)) e2 ∧
    (handler "POST" (some (url, merge)) e1).statusCode = 400 ∧
    isValidationError (handler "POST" (some (url, merge)) e1).body = true ∧
    (∀ e : ScrapeEnv, ∀ m : Bool,
      isValidationError (handler "POST" (some (goodUrl, m)) e).body = false) := by
  have hpass : ∀ e : ScrapeEnv, ∀ m : Bool,
      isValidationError (handler "POST" (some (goodUrl, m)) e).body = false := by
    intro e m
    simp only [handler, Option.map, Option.getD]
    rw [if_neg (by decide), if_neg (by decide), if_neg (by decide),
      if_neg (by decide), if_neg (by decide)]
    split
    · rfl
    · split <;> rfl
  by_cases h0 : pyStrip url = ""
  · have he : ∀ e : ScrapeEnv,
        handler "POST" (some (url, merge)) e = ⟨400, ApiBody.urlRequired⟩ := by
      intro e
      simp only [handler, Option.map, Option.getD]
      rw [if_neg (by decide), if_neg (by decide), if_pos h0]
    exact ⟨(he e1).trans (he e2).symm, by rw [he e1], by rw [he e1]; rfl, hpass⟩
  · by_cases h1 : (urlparseModel (pyStrip url)).scheme = "http"
        ∨ (urlparseModel (pyStrip url)).scheme = "https"
    · have h2 : (urlparseModel (pyStrip url)).hostname ≠ "search.txcourts.gov" :=
        h.resolve_left (not_not_intro h1)
      have he : ∀ e : ScrapeEnv,
          handler "POST" (some (url, merge)) e = ⟨400, ApiBody.hostNotAllowed⟩ := by
        intro e
        simp only [handler, Option.map, Option.getD]
        rw [if_neg (by decide), if_neg (by decide), if_neg h0,
          if_neg (not_not_intro h1), if_pos h2]
      exact ⟨(he e1).trans (he e2).symm, by rw [he e1], by rw [he e1]; rfl, hpass⟩
    · have he : ∀ e : ScrapeEnv,
          handler "POST" (some (url, merge)) e = ⟨400, ApiBody.invalidScheme⟩ := by
        intro e
        simp only [handler, Option.map, Option.getD]
        rw [if_neg (by decide), if_neg (by decide), if_neg h0, if_pos h1]
      exact ⟨(he e1).trans (he e2).symm, by rw [he e1], by rw [he e1]; rfl, hpass⟩

/-- C1 witness: the amended guard applied to `https://evil.example.com/x`
under two different worlds (failing and serving). -/
theorem api_validation_guard_witness :
    handler "POST" (some (evilUrl, false)) envPageFail
      = handler "POST" (some (evilUrl, false)) envEvilServes ∧
    (handler "POST" (some (evilUrl, false)) envPageFail).statusCode = 400 ∧
    isValidationError (handler "POST" (some (evilUrl, false)) envPageFail).body = true := by
  have h := api_validation_guard evilUrl false envPageFail envEvilServes (by decide)
  exact ⟨h.1, h.2.1, h.2.2.1⟩

/-- C1 counterexample: the Flask invocation surface (one of the two
invocation surfaces of the repository) accepts the disallowed host
`evil.example.com` without any validation error — the job is reported as
started, and the started job runs the pipeline against the foreign host
(here fetching its page and downloading a document from it). -/
theorem flask_route_no_allowlist :
    appScrape (some (evilUrl, false)) = (200, AppScrapeBody.started) ∧
    (webJobRun envEvilServes "/tmp/job" evilUrl false).pdfs
      = ["/tmp/job/pdfs/document_1_9KB.pdf"] := by
  decide
